import Mathlib

/-!
Verification of the value-derivation, segment-synchronization and
focus-advancement logic of the `react-date-picker` `DateInput` component.

The component's logic is shallowly embedded: JavaScript `Date` values are
modelled as proleptic-Gregorian calendar dates (the widget never inspects
time-of-day), strings that reach `new Date(string)` parsing are abstracted
into an inductive that records the parse outcome, and functions that `throw`
are embedded with `Except String`.
-/

deriving instance DecidableEq for Except

namespace DatePicker

/-- A calendar date: the observable content of a JavaScript `Date` at the
granularity this widget manipulates (year / human month 1-12 / day 1-31). -/
structure CalDate where
  year : Int
  month : Nat
  day : Nat
deriving DecidableEq, Repr

/-- Proleptic Gregorian leap-year rule, as JavaScript `Date` implements it. -/
def isLeap (y : Int) : Bool :=
  y % 4 = 0 && (y % 100 ≠ 0 || y % 400 = 0)

/-- Number of days in a (1-based) month of a given year. -/
def daysInMonth (y : Int) (m : Nat) : Nat :=
  if m = 2 then (if isLeap y then 29 else 28)
  else if m = 4 ∨ m = 6 ∨ m = 9 ∨ m = 11 then 30
  else 31

/-- A structurally valid calendar date. -/
def CalDate.Valid (d : CalDate) : Prop :=
  1 ≤ d.month ∧ d.month ≤ 12 ∧ 1 ≤ d.day ∧ d.day ≤ daysInMonth d.year d.month

instance (d : CalDate) : Decidable d.Valid := by
  unfold CalDate.Valid; infer_instance

/-- Chronological strict order on calendar dates (what `<` / `>` compute on
JavaScript `Date` objects, restricted to date granularity). -/
def CalDate.ltb (a b : CalDate) : Bool :=
  if a.year = b.year then
    if a.month = b.month then decide (a.day < b.day)
    else decide (a.month < b.month)
  else decide (a.year < b.year)

/-- Modelled from the spec: the bounds utility (`shared/utils` `between`,
absent from the provided sources) "clamps a value between inclusive min/max":
returns `value` unless it lies outside `[min, max]`, in which case it returns
the nearest bound; an absent bound does not constrain.  Upper-bound half. -/
def clampMax (value : CalDate) (mx : Option CalDate) : CalDate :=
  match mx with
  | some hi => if CalDate.ltb hi value then hi else value
  | none => value

/-- Modelled from the spec: the bounds utility `between(value, min, max)`
(see `clampMax`); the min bound is tested first. -/
def between (value : CalDate) (mn mx : Option CalDate) : CalDate :=
  match mn with
  | some lo => if CalDate.ltb value lo then lo else clampMax value mx
  | none => clampMax value mx

/-- The calendar views recognised by `maxDetail` (`allViews` in the source). -/
inductive View where
  | century
  | decade
  | year
  | month
deriving DecidableEq, Repr

/-- The units a derived value can be rounded to (`allValueTypes` in the
source: `[...allViews.slice(1), 'day']`). -/
inductive ValueType where
  | decade
  | year
  | month
  | day
deriving DecidableEq, Repr

/-- `allViews = ['century', 'decade', 'year', 'month']`. -/
def allViews : List View := [.century, .decade, .year, .month]

/-- `allValueTypes = [...allViews.slice(1), 'day']`. -/
def allValueTypes : List ValueType := [.decade, .year, .month, .day]

/-- `getValueType(maxDetail) = allValueTypes[allViews.indexOf(maxDetail)]`:
the unit of the derived value is one step finer than the `maxDetail` view.
(The index is always in range; the `getD` default is never reached.) -/
def getValueType (maxDetail : View) : ValueType :=
  (allValueTypes.get? (List.indexOf maxDetail allViews)).getD .day

/-- First year of the decade containing year `y` (decades run `…1`–`…0`,
e.g. 2021–2030), as `@wojtekmaj/date-utils` computes decade starts. -/
def decadeStartYear (y : Int) : Int :=
  y - (y - 1) % 10

/-- Modelled from the spec: `getBegin(rangeType, date)` (`shared/dates`,
absent from the provided sources) rounds a date down to the start of the
unit implied by the range type. -/
def getBegin (u : ValueType) (d : CalDate) : CalDate :=
  match u with
  | .decade => ⟨decadeStartYear d.year, 1, 1⟩
  | .year => ⟨d.year, 1, 1⟩
  | .month => ⟨d.year, d.month, 1⟩
  | .day => d

/-- Modelled from the spec: `getEnd(rangeType, date)` (`shared/dates`,
absent from the provided sources) rounds a date up to the end of the unit
implied by the range type (at this embedding's day granularity). -/
def getEnd (u : ValueType) (d : CalDate) : CalDate :=
  match u with
  | .decade => ⟨decadeStartYear d.year + 9, 12, 31⟩
  | .year => ⟨d.year, 12, 31⟩
  | .month => ⟨d.year, d.month, daysInMonth d.year d.month⟩
  | .day => d

/-- One raw candidate value as supplied by the caller.  JavaScript string →
`Date` parsing is a platform primitive, so a raw candidate is abstracted by
its parse outcome: falsy (empty string / null / undefined), parseable to a
valid date, or non-empty but unparseable. -/
inductive Raw where
  | empty
  | valid (d : CalDate)
  | invalid (s : String)
deriving DecidableEq, Repr

/-- The `value` prop: a single raw value or an array of raw values. -/
inductive RawValue where
  | single (r : Raw)
  | arr (l : List Raw)
deriving DecidableEq, Repr

/-- `parseAndValidateDate(rawValue)`: falsy input → `null`; input whose
parse yields an invalid date → throw `Invalid date: …`; otherwise the
parsed date. -/
def parseAndValidateDate : Raw → Except String (Option CalDate)
  | .empty => .ok none
  | .valid d => .ok (some d)
  | .invalid s => .error ("Invalid date: " ++ s)

/-- `getValueFromRange(valueOrArrayOfValues, index)`: array → its element at
`index` (out-of-range gives `undefined`, i.e. falsy); otherwise the value. -/
def getValueFromRange (v : RawValue) (index : Nat) : Raw :=
  match v with
  | .arr l => l.getD index .empty
  | .single r => r

/-- `getValueFrom(value)`. -/
def getValueFrom (v : RawValue) : Except String (Option CalDate) :=
  parseAndValidateDate (getValueFromRange v 0)

/-- `getValueTo(value)`. -/
def getValueTo (v : RawValue) : Except String (Option CalDate) :=
  parseAndValidateDate (getValueFromRange v 1)

/-- `getDetailValueFrom(value, minDate, maxDate, maxDetail)`: round the
"from" candidate down to the start of `getValueType(maxDetail)`'s unit and
clamp into `[minDate, maxDate]`. -/
def getDetailValueFrom (value : RawValue) (minDate maxDate : Option CalDate)
    (maxDetail : View) : Except String (Option CalDate) := do
  let valueFrom ← getValueFrom value
  match valueFrom with
  | none => return none
  | some vf => return some (between (getBegin (getValueType maxDetail) vf) minDate maxDate)

/-- `getDetailValueTo(value, minDate, maxDate, maxDetail)`: round the "to"
candidate up to the end of `getValueType(maxDetail)`'s unit and clamp into
`[minDate, maxDate]`. -/
def getDetailValueTo (value : RawValue) (minDate maxDate : Option CalDate)
    (maxDetail : View) : Except String (Option CalDate) := do
  let valueTo ← getValueTo value
  match valueTo with
  | none => return none
  | some vt => return some (between (getEnd (getValueType maxDetail) vt) minDate maxDate)

/-- Result shape of `getProcessedValue` / `getDetailValueArray`: a single
(possibly absent) date, the caller's array returned verbatim, or a derived
`[from, to]` pair. -/
inductive ProcessedValue where
  | single (d : Option CalDate)
  | verbatimArr (l : List Raw)
  | derivedPair (a b : Option CalDate)
deriving DecidableEq, Repr

/-- `getDetailValueArray(value, minDate, maxDate, maxDetail)`: an array
value is returned verbatim; otherwise the derived `[from, to]` pair. -/
def getDetailValueArray (value : RawValue) (minDate maxDate : Option CalDate)
    (maxDetail : View) : Except String ProcessedValue :=
  match value with
  | .arr l => .ok (.verbatimArr l)
  | .single _ => do
      let a ← getDetailValueFrom value minDate maxDate maxDetail
      let b ← getDetailValueTo value minDate maxDate maxDetail
      return .derivedPair a b

/-- `getProcessedValue(value)`: dispatch on the `returnValue` prop
(`switch` with a throwing `default`). -/
def getProcessedValue (returnValue : String) (value : RawValue)
    (minDate maxDate : Option CalDate) (maxDetail : View) :
    Except String ProcessedValue :=
  if returnValue = "start" then
    (getDetailValueFrom value minDate maxDate maxDetail).map .single
  else if returnValue = "end" then
    (getDetailValueTo value minDate maxDate maxDetail).map .single
  else if returnValue = "range" then
    getDetailValueArray value minDate maxDate maxDetail
  else
    .error "Invalid returnValue."

/-- The calendar date immediately after `c` (days-of-month roll into the
next month, December 31 rolls into the next year). -/
def nextDay (c : CalDate) : CalDate :=
  if c.day < daysInMonth c.year c.month then ⟨c.year, c.month, c.day + 1⟩
  else if c.month < 12 then ⟨c.year, c.month + 1, 1⟩
  else ⟨c.year + 1, 1, 1⟩

/-- The calendar date immediately before `c`. -/
def prevDay (c : CalDate) : CalDate :=
  if 1 < c.day then ⟨c.year, c.month, c.day - 1⟩
  else if 1 < c.month then ⟨c.year, c.month - 1, daysInMonth c.year (c.month - 1)⟩
  else ⟨c.year - 1, 12, 31⟩

/-- Add `n` days to a calendar date. -/
def addDaysNat : CalDate → Nat → CalDate
  | c, 0 => c
  | c, n + 1 => addDaysNat (nextDay c) n

/-- Subtract `n` days from a calendar date. -/
def subDaysNat : CalDate → Nat → CalDate
  | c, 0 => c
  | c, n + 1 => subDaysNat (prevDay c) n

/-- The JavaScript `new Date(year, monthIndex, day)` constructor at calendar
granularity (ECMA-262 `MakeDay`): a year argument in `[0, 99]` is offset by
1900; the month index is normalised into the year with floored
division/modulo; the date is day 1 of that month advanced by `day - 1`
days (so out-of-range day arguments roll over). -/
def mkDate (yearArg monthIndex dayArg : Int) : CalDate :=
  let yr : Int := if 0 ≤ yearArg ∧ yearArg ≤ 99 then 1900 + yearArg else yearArg
  let ym : Int := yr + Int.fdiv monthIndex 12
  let mn : Nat := (monthIndex % 12).toNat + 1
  let firstOfMonth : CalDate := ⟨ym, mn, 1⟩
  let off : Int := dayArg - 1
  if 0 ≤ off then addDaysNat firstOfMonth off.toNat
  else subDaysNat firstOfMonth (-off).toNat

/-- `@wojtekmaj/date-utils` `getYear` on a date. -/
def getYear (d : CalDate) : Int := d.year

/-- `@wojtekmaj/date-utils` `getMonthHuman`: 1-based month. -/
def getMonthHuman (d : CalDate) : Nat := d.month

/-- `@wojtekmaj/date-utils` `getDate`: day of month. -/
def getDate (d : CalDate) : Nat := d.day

/-- One rendered segment input as `onChangeExternal` observes it through its
DOM ref: its current value (`none` for a blank field — JavaScript reads the
empty string, which is falsy) and the `min`/`max` attributes constraining
its HTML validity. -/
structure FormElement where
  value : Option Int
  minAttr : Int
  maxAttr : Int
deriving DecidableEq, Repr

/-- HTML `checkValidity()` of a numeric segment input: a filled field is
valid when its value lies within the `min`/`max` attributes.  (The code only
consults it on filled fields.) -/
def checkValidity (e : FormElement) : Bool :=
  match e.value with
  | none => true
  | some v => decide (e.minAttr ≤ v ∧ v ≤ e.maxAttr)

/-- The segment-input refs a `DateInput` instance holds (`this.dayInput`
etc.); a ref is `none` when that segment is not rendered. -/
structure SegmentInputs where
  dayInput : Option FormElement
  monthInput : Option FormElement
  yearInput : Option FormElement
deriving DecidableEq, Repr

/-- `[this.dayInput, this.monthInput, this.yearInput].filter(Boolean)`. -/
def formElements (s : SegmentInputs) : List FormElement :=
  [s.dayInput, s.monthInput, s.yearInput].filterMap id

/-- What `onChangeExternal` passes to `props.onChange`: `null`, or a
processed value. -/
inductive Emission where
  | absentValue
  | changed (v : ProcessedValue)
deriving DecidableEq, Repr

/-- `onChangeExternal()`: result `none` means `props.onChange` is not
invoked.  All rendered fields blank → emit `null`; all rendered fields
filled and individually valid → assemble `new Date(year, month - 1, day)`
(month and day default to 1 when their segments are not rendered), process
it per `returnValue`, and emit; otherwise no emission.  When the year
segment is not rendered the assembly reads `parseInt(undefined)`, producing
an Invalid Date that `parseAndValidateDate` rejects — embedded as the same
`Invalid date` error. -/
def onChangeExternal (s : SegmentInputs) (minDate maxDate : Option CalDate)
    (maxDetail : View) (returnValue : String) :
    Except String (Option Emission) :=
  let elems := formElements s
  if elems.all (fun e => e.value.isNone) then
    .ok (some .absentValue)
  else if elems.all (fun e => e.value.isSome && checkValidity e) then
    match s.yearInput.bind (fun e => e.value) with
    | none => .error "Invalid date: Invalid Date"
    | some yearV =>
        let monthV : Int := ((s.monthInput.bind (fun e => e.value)).getD 1)
        let dayV : Int := ((s.dayInput.bind (fun e => e.value)).getD 1)
        let proposedValue := mkDate yearV (monthV - 1) dayV
        (getProcessedValue returnValue (.single (.valid proposedValue))
            minDate maxDate maxDetail).map (fun pv => some (.changed pv))
  else
    .ok none

/-- Whether `parseInt(key, 10)` yields a number (not `NaN`): the string
starts with a decimal digit, optionally preceded by a sign.  (Keyboard
`event.key` values never carry leading whitespace.) -/
def jsParseIntOk (s : String) : Bool :=
  match s.data with
  | [] => false
  | c :: rest =>
      c.isDigit ||
        ((c = '-' || c = '+') && match rest with
          | c2 :: _ => c2.isDigit
          | [] => false)

/-- `onKeyUp`: returns whether focus advances to the next segment.  Only
numeric keys are considered; focus advances exactly when appending any
further digit would exceed the field's `max` attribute, i.e. when
`value * 10 > max`. -/
def onKeyUpAdvances (key : String) (value : Int) (maxAttr : Int) : Bool :=
  if !jsParseIntOk key then false
  else decide (value * 10 > maxAttr)

/-- The result of `renderDay`: a `DayInput`, recording the
leading-zeros-from-format flag derived from the token run. -/
inductive DayRender where
  | dayInput (showLeadingZerosFromFormat : Bool)
deriving DecidableEq, Repr

/-- The result of `renderMonth`: a textual `MonthSelect` (with its `short`
flag) or a numeric `MonthInput`. -/
inductive MonthRender where
  | monthSelect (short : Bool)
  | monthInput (showLeadingZerosFromFormat : Bool)
deriving DecidableEq, Repr

/-- `renderDay(currentMatch, index)`: a day token run longer than 2 throws
`Unsupported token`; otherwise a `DayInput` is rendered, with leading zeros
forced by a length-2 run. -/
def renderDay (currentMatch : String) : Except String DayRender :=
  if currentMatch ≠ "" ∧ currentMatch.length > 2 then
    .error ("Unsupported token: " ++ currentMatch)
  else
    .ok (.dayInput (decide (currentMatch ≠ "" ∧ currentMatch.length = 2)))

/-- `renderMonth(currentMatch, index)`: a month token run longer than 4
throws `Unsupported token`; a run of length 3-4 renders a `MonthSelect`
(`short` iff length 3); otherwise a numeric `MonthInput`. -/
def renderMonth (currentMatch : String) : Except String MonthRender :=
  if currentMatch ≠ "" ∧ currentMatch.length > 4 then
    .error ("Unsupported token: " ++ currentMatch)
  else if currentMatch.length > 2 then
    .ok (.monthSelect (decide (currentMatch.length = 3)))
  else
    .ok (.monthInput (decide (currentMatch ≠ "" ∧ currentMatch.length = 2)))

/-- `MonthInput`'s `maxMonth`:
`min(12, maxDate && year === getYear(maxDate) && getMonthHuman(maxDate))`.
The `shared/utils` `min` ignores non-number arguments, so the chain
contributes a bound only when `maxDate` is present and the current year
(possibly `null`) strictly equals `maxDate`'s year. -/
def monthInputMaxMonth (maxDate : Option CalDate) (year : Option Int) : Nat :=
  match maxDate with
  | some md => if year = some (getYear md) then min 12 (getMonthHuman md) else 12
  | none => 12

/-- `MonthInput`'s `minMonth`:
`max(1, minDate && year === getYear(minDate) && getMonthHuman(minDate))`. -/
def monthInputMinMonth (minDate : Option CalDate) (year : Option Int) : Nat :=
  match minDate with
  | some md => if year = some (getYear md) then max 1 (getMonthHuman md) else 1
  | none => 1

/-- `MonthSelect`'s `maxMonth` (computed by the same expression as
`MonthInput`'s). -/
def monthSelectMaxMonth (maxDate : Option CalDate) (year : Option Int) : Nat :=
  match maxDate with
  | some md => if year = some (getYear md) then min 12 (getMonthHuman md) else 12
  | none => 12

/-- `MonthSelect`'s `minMonth` (computed by the same expression as
`MonthInput`'s). -/
def monthSelectMinMonth (minDate : Option CalDate) (year : Option Int) : Nat :=
  match minDate with
  | some md => if year = some (getYear md) then max 1 (getMonthHuman md) else 1
  | none => 1

/-- Whether `MonthSelect` disables the option for (1-based) month `m`:
`month < minMonth || month > maxMonth`. -/
def monthSelectOptionDisabled (m : Nat) (minDate maxDate : Option CalDate)
    (year : Option Int) : Bool :=
  decide (m < monthSelectMinMonth minDate year) ||
    decide (m > monthSelectMaxMonth maxDate year)

/-! ## Helper lemmas -/

theorem daysInMonth_le_31 (y : Int) (m : Nat) : daysInMonth y m ≤ 31 := by
  unfold daysInMonth
  split_ifs <;> omega

theorem one_le_daysInMonth (y : Int) (m : Nat) : 1 ≤ daysInMonth y m := by
  unfold daysInMonth
  split_ifs <;> omega

/-- `ltb a b = false` means `b ≤ a` chronologically. -/
theorem ltb_eq_false_iff (a b : CalDate) :
    CalDate.ltb a b = false ↔
      (b.year < a.year ∨ (a.year = b.year ∧
        (b.month < a.month ∨ (a.month = b.month ∧ b.day ≤ a.day)))) := by
  unfold CalDate.ltb
  split_ifs with h1 h2 <;>
    simp only [decide_eq_false_iff_not, Nat.not_lt, Int.not_lt] <;>
    omega

/-- Rounding down never moves a valid date later: `getBegin u v ≤ v`. -/
theorem ltb_getBegin_eq_false (u : ValueType) (v : CalDate) (hv : v.Valid) :
    CalDate.ltb v (getBegin u v) = false := by
  obtain ⟨h1, h2, h3, h4⟩ := hv
  have hr0 : 0 ≤ (v.year - 1) % 10 := Int.emod_nonneg _ (by norm_num)
  cases u <;>
    (rw [ltb_eq_false_iff]; dsimp only [getBegin, decadeStartYear]) <;>
    omega

/-- Rounding up never moves a valid date earlier: `v ≤ getEnd u v`. -/
theorem ltb_getEnd_eq_false (u : ValueType) (v : CalDate) (hv : v.Valid) :
    CalDate.ltb (getEnd u v) v = false := by
  obtain ⟨h1, h2, h3, h4⟩ := hv
  have hr9 : (v.year - 1) % 10 < 10 := Int.emod_lt_of_pos _ (by norm_num)
  have h31 : daysInMonth v.year v.month ≤ 31 := daysInMonth_le_31 v.year v.month
  cases u <;>
    (rw [ltb_eq_false_iff]; dsimp only [getEnd, decadeStartYear]) <;>
    omega

/-- Adding days within a month leaves year and month untouched. -/
theorem addDaysNat_within (y : Int) (m : Nat) (n : Nat) :
    ∀ (k : Nat), 1 ≤ k → k + n ≤ daysInMonth y m →
      addDaysNat ⟨y, m, k⟩ n = ⟨y, m, k + n⟩ := by
  induction n with
  | zero => intro k _ _; rfl
  | succ n ih =>
      intro k hk hle
      have hlt : k < daysInMonth y m := by omega
      have step : addDaysNat (⟨y, m, k⟩ : CalDate) (n + 1)
          = addDaysNat (nextDay ⟨y, m, k⟩) n := rfl
      have hnd : nextDay ⟨y, m, k⟩ = ⟨y, m, k + 1⟩ := by
        unfold nextDay
        rw [if_pos hlt]
      rw [step, hnd, ih (k + 1) (by omega) (by omega)]
      congr 1
      omega

/-- The 1900-offset applied to a two-digit year does not change leapness
for years 1-99 (1900 itself is a common year, but `1900 + y` with
`1 ≤ y ≤ 99` is leap exactly when `y` is). -/
theorem isLeap_1900 (y : Int) (h1 : 1 ≤ y) (h2 : y ≤ 99) :
    isLeap (1900 + y) = isLeap y := by
  unfold isLeap
  have e4 : (1900 + y) % 4 = y % 4 := by omega
  have e100 : ¬((1900 + y) % 100 = 0) := by omega
  have f100 : ¬(y % 100 = 0) := by omega
  rw [e4]
  simp [e100, f100]

theorem daysInMonth_1900 (y : Int) (m : Nat) (h1 : 1 ≤ y) (h2 : y ≤ 99) :
    daysInMonth (1900 + y) m = daysInMonth y m := by
  unfold daysInMonth
  rw [isLeap_1900 y h1 h2]

/-- Evaluation of `mkDate` on an in-range month and day: the result is the
literal date in the (possibly 1900-offset) year. -/
theorem mkDate_eval (yq : Int) (m d : Nat) (y : Int)
    (hq : (if 0 ≤ y ∧ y ≤ 99 then 1900 + y else y) = yq)
    (h1 : 1 ≤ m) (h2 : m ≤ 12) (h3 : 1 ≤ d) (h4 : d ≤ daysInMonth yq m) :
    mkDate y ((m : Int) - 1) (d : Int) = ⟨yq, m, d⟩ := by
  have hm0 : (0 : Int) ≤ (m : Int) - 1 := by omega
  have hmlt : (m : Int) - 1 < 12 := by omega
  have hd0 : (0 : Int) ≤ (d : Int) - 1 := by omega
  simp only [mkDate, hq]
  rw [Int.fdiv_eq_ediv _ (by norm_num), Int.ediv_eq_zero_of_lt hm0 hmlt,
    Int.emod_eq_of_lt hm0 hmlt, if_pos hd0]
  have hmn : ((m : Int) - 1).toNat + 1 = m := by omega
  have hdn : ((d : Int) - 1).toNat = d - 1 := by omega
  rw [hmn, hdn, add_zero, addDaysNat_within yq m (d - 1) 1 le_rfl (by omega)]
  congr 1
  omega

/-! ## Claim theorems -/

/-- C5: when the caller supplies an explicit two-element array as the value,
range derivation (`getDetailValueArray`) returns that array verbatim — no
per-element parsing, rounding to unit boundaries, or clamping into
`[minDate, maxDate]` occurs in that path. -/
theorem c5_array_value_verbatim (a b : Raw) (mn mx : Option CalDate) (md : View) :
    getDetailValueArray (.arr [a, b]) mn mx md = .ok (.verbatimArr [a, b]) := rfl

/-- C6: in value derivation, an empty/absent raw candidate yields an absent
result without error, while a non-empty candidate that fails to parse into a
valid calendar date raises the synchronous `Invalid date` error — both at
the `parseAndValidateDate` level and through `getDetailValueFrom` /
`getDetailValueTo`. -/
theorem c6_parse_and_validate (mn mx : Option CalDate) (md : View) (s : String)
    (d : CalDate) :
    parseAndValidateDate .empty = .ok none
    ∧ parseAndValidateDate (.invalid s) = .error ("Invalid date: " ++ s)
    ∧ parseAndValidateDate (.valid d) = .ok (some d)
    ∧ getDetailValueFrom (.single .empty) mn mx md = .ok none
    ∧ getDetailValueTo (.single .empty) mn mx md = .ok none
    ∧ getDetailValueFrom (.single (.invalid s)) mn mx md = .error ("Invalid date: " ++ s)
    ∧ getDetailValueTo (.single (.invalid s)) mn mx md = .error ("Invalid date: " ++ s) :=
  ⟨rfl, rfl, rfl, rfl, rfl, rfl, rfl⟩

/-- C7: `getProcessedValue` maps the candidate per the configured return
mode — `start` to the derived start-of-range, `end` to the derived
end-of-range, `range` to the derived array — and any mode outside
`{start, end, range}` raises the fatal `Invalid returnValue.` error. -/
theorem c7_return_mode_dispatch (value : RawValue) (mn mx : Option CalDate)
    (md : View) (s : String)
    (h1 : s ≠ "start") (h2 : s ≠ "end") (h3 : s ≠ "range") :
    getProcessedValue "start" value mn mx md
      = (getDetailValueFrom value mn mx md).map .single
    ∧ getProcessedValue "end" value mn mx md
      = (getDetailValueTo value mn mx md).map .single
    ∧ getProcessedValue "range" value mn mx md
      = getDetailValueArray value mn mx md
    ∧ getProcessedValue s value mn mx md = .error "Invalid returnValue." := by
  refine ⟨rfl, rfl, rfl, ?_⟩
  simp [getProcessedValue, h1, h2, h3]

/-- Witness for C7 at the unrecognised mode `"foo"`. -/
theorem c7_witness :
    getProcessedValue "foo" (.single .empty) none none .month
      = .error "Invalid returnValue." :=
  (c7_return_mode_dispatch (.single .empty) none none .month "foo"
      (by decide) (by decide) (by decide)).2.2.2

/-- C8: on key-up of a numeric key in a segment with current value `v` and
maximum `max`, focus advances exactly when `v * 10 > max`; with `max = 12`,
value 2 advances (20 > 12) and value 1 stays (10 ≤ 12). -/
theorem c8_focus_advance (key : String) (v mx : Int)
    (h : jsParseIntOk key = true) :
    (onKeyUpAdvances key v mx = true ↔ v * 10 > mx)
    ∧ onKeyUpAdvances "2" 2 12 = true
    ∧ onKeyUpAdvances "1" 1 12 = false := by
  refine ⟨?_, by decide, by decide⟩
  simp [onKeyUpAdvances, h]

/-- Witness for C8: the digit key `"2"` with value 2 and max 12 advances. -/
theorem c8_witness : onKeyUpAdvances "2" 2 12 = true :=
  (c8_focus_advance "2" 2 12 (by decide)).1.mpr (by norm_num)

/-- C9: a day token run of length at most 2 renders a `DayInput`, a longer
one raises `Unsupported token`; a month token run longer than 4 raises
`Unsupported token`, and one of length 3-4 renders the textual
`MonthSelect` instead of the numeric month field. -/
theorem c9_token_runs (s t u v : String)
    (hs : s.length ≤ 2) (ht : 2 < t.length) (hu : 4 < u.length)
    (hv3 : 3 ≤ v.length) (hv4 : v.length ≤ 4) :
    renderDay s = .ok (.dayInput (decide (s ≠ "" ∧ s.length = 2)))
    ∧ renderDay t = .error ("Unsupported token: " ++ t)
    ∧ renderMonth u = .error ("Unsupported token: " ++ u)
    ∧ renderMonth v = .ok (.monthSelect (decide (v.length = 3))) := by
  have ht0 : t ≠ "" := by
    intro h; rw [h] at ht; simp at ht
  have hu0 : u ≠ "" := by
    intro h; rw [h] at hu; simp at hu
  refine ⟨?_, ?_, ?_, ?_⟩
  · rw [renderDay, if_neg (by omega)]
  · rw [renderDay, if_pos ⟨ht0, ht⟩]
  · rw [renderMonth, if_pos ⟨hu0, hu⟩]
  · rw [renderMonth, if_neg (by omega), if_pos (by omega)]

/-- Witness for C9: `"dd"` renders, `"ddd"` raises `Unsupported token`,
`"MMMMM"` raises `Unsupported token`, `"MMM"` selects the short textual
month selector. -/
theorem c9_witness :
    renderDay "dd" = .ok (.dayInput true)
    ∧ renderDay "ddd" = .error "Unsupported token: ddd"
    ∧ renderMonth "MMMMM" = .error "Unsupported token: MMMMM"
    ∧ renderMonth "MMM" = .ok (.monthSelect true) := by
  have h := c9_token_runs "dd" "ddd" "MMMMM" "MMM"
    (by decide) (by decide) (by decide) (by decide) (by decide)
  exact ⟨h.1, h.2.1, h.2.2.1, h.2.2.2⟩

/-- C1 counterexample: with `maxDetail = 'month'` (the claim's
"precision=month") on 2023-07-15 the derived start is 2023-07-15 itself —
`getValueType` maps `month` to the `day` unit — not 2023-07-01, and the
derived end is not 2023-07-31. -/
theorem c1_counterexample :
    getDetailValueFrom (.single (.valid ⟨2023, 7, 15⟩)) none none .month
      = .ok (some ⟨2023, 7, 15⟩)
    ∧ getDetailValueTo (.single (.valid ⟨2023, 7, 15⟩)) none none .month
      = .ok (some ⟨2023, 7, 15⟩)
    ∧ getDetailValueFrom (.single (.valid ⟨2023, 7, 15⟩)) none none .month
      ≠ .ok (some ⟨2023, 7, 1⟩)
    ∧ getDetailValueTo (.single (.valid ⟨2023, 7, 15⟩)) none none .month
      ≠ .ok (some ⟨2023, 7, 31⟩) := by
  refine ⟨rfl, rfl, by decide, by decide⟩

/-- C1 (amended): for every single value and precision level, derivation
rounds the "from" candidate down to the start — and the "to" candidate up
to the end — of the unit `getValueType(precision)`, which is one step finer
than the precision view (`month ⇒ day`); the month-unit example
(2023-07-15 ⇒ 2023-07-01 / 2023-07-31) arises at precision `year`, whose
implied unit is `month`. -/
theorem c1_rounding (v : CalDate) (mn mx : Option CalDate) (md : View)
    (hv : v.Valid) :
    getDetailValueFrom (.single (.valid v)) mn mx md
      = .ok (some (between (getBegin (getValueType md) v) mn mx))
    ∧ getDetailValueTo (.single (.valid v)) mn mx md
      = .ok (some (between (getEnd (getValueType md) v) mn mx))
    ∧ CalDate.ltb v (getBegin (getValueType md) v) = false
    ∧ CalDate.ltb (getEnd (getValueType md) v) v = false
    ∧ getValueType .month = .day
    ∧ getValueType .year = .month
    ∧ getDetailValueFrom (.single (.valid ⟨2023, 7, 15⟩)) none none .year
      = .ok (some ⟨2023, 7, 1⟩)
    ∧ getDetailValueTo (.single (.valid ⟨2023, 7, 15⟩)) none none .year
      = .ok (some ⟨2023, 7, 31⟩) :=
  ⟨rfl, rfl, ltb_getBegin_eq_false _ v hv, ltb_getEnd_eq_false _ v hv,
    rfl, rfl, by decide, by decide⟩

/-- Witness for C1 at 2023-07-15 with precision `year` (month unit). -/
theorem c1_witness :
    CalDate.Valid ⟨2023, 7, 15⟩
    ∧ getDetailValueFrom (.single (.valid ⟨2023, 7, 15⟩)) none none .year
      = .ok (some ⟨2023, 7, 1⟩) :=
  ⟨by decide,
    (c1_rounding ⟨2023, 7, 15⟩ none none .year (by decide)).2.2.2.2.2.2.1⟩

/-- C2 counterexample: with `maxDetail = 'year'` (the claim's
"precision=year") on 2023-07-15 and `minDate = 2023-03-01`, the derived
range is the July month range 2023-07-01 … 2023-07-31 — `getValueType`
maps `year` to the `month` unit — not the claimed 2023-03-01 … 2023-12-31. -/
theorem c2_counterexample :
    getDetailValueFrom (.single (.valid ⟨2023, 7, 15⟩)) (some ⟨2023, 3, 1⟩) none .year
      = .ok (some ⟨2023, 7, 1⟩)
    ∧ getDetailValueTo (.single (.valid ⟨2023, 7, 15⟩)) (some ⟨2023, 3, 1⟩) none .year
      = .ok (some ⟨2023, 7, 31⟩)
    ∧ getDetailValueFrom (.single (.valid ⟨2023, 7, 15⟩)) (some ⟨2023, 3, 1⟩) none .year
      ≠ .ok (some ⟨2023, 3, 1⟩)
    ∧ getDetailValueTo (.single (.valid ⟨2023, 7, 15⟩)) (some ⟨2023, 3, 1⟩) none .year
      ≠ .ok (some ⟨2023, 12, 31⟩) := by
  refine ⟨rfl, rfl, by decide, by decide⟩

/-- C2 (amended): year-unit rounding arises at precision `decade`
(`getValueType decade = year`); there, derivation on 2023-07-15 with
`minDate = 2023-03-01` rounds to the year range and clamps the start up to
the minimum: start = 2023-03-01, end = 2023-12-31.  Clamping via `between`
is applied to both derived ends for every precision. -/
theorem c2_year_unit_clamped :
    getValueType .decade = .year
    ∧ getDetailValueFrom (.single (.valid ⟨2023, 7, 15⟩)) (some ⟨2023, 3, 1⟩) none .decade
      = .ok (some ⟨2023, 3, 1⟩)
    ∧ getDetailValueTo (.single (.valid ⟨2023, 7, 15⟩)) (some ⟨2023, 3, 1⟩) none .decade
      = .ok (some ⟨2023, 12, 31⟩)
    ∧ (∀ (v : CalDate) (mn mx : Option CalDate) (md : View),
        getDetailValueFrom (.single (.valid v)) mn mx md
          = .ok (some (between (getBegin (getValueType md) v) mn mx))
        ∧ getDetailValueTo (.single (.valid v)) mn mx md
          = .ok (some (between (getEnd (getValueType md) v) mn mx))) :=
  ⟨rfl, by decide, by decide, fun _ _ _ _ => ⟨rfl, rfl⟩⟩

/-- C10: the numeric month segment's bounds depend on the year segment —
the maximum is `maxDate`'s human month exactly when `maxDate` is present
and the current year equals `maxDate`'s year, and 12 otherwise (including
when the year segment is still blank); symmetrically for the minimum with
`minDate`; `MonthSelect` computes the same bounds and disables exactly the
options outside them. -/
theorem c10_month_bounds (md mn : CalDate) (yr : Int) (y0 : Option Int)
    (m : Nat) (hmd : md.Valid) (hmn : mn.Valid) :
    (monthInputMaxMonth (some md) (some yr)
      = if yr = md.year then getMonthHuman md else 12)
    ∧ monthInputMaxMonth (some md) none = 12
    ∧ monthInputMaxMonth none y0 = 12
    ∧ (monthInputMinMonth (some mn) (some yr)
      = if yr = mn.year then getMonthHuman mn else 1)
    ∧ monthInputMinMonth (some mn) none = 1
    ∧ monthInputMinMonth none y0 = 1
    ∧ (∀ (mdo : Option CalDate) (y1 : Option Int),
        monthSelectMaxMonth mdo y1 = monthInputMaxMonth mdo y1
        ∧ monthSelectMinMonth mdo y1 = monthInputMinMonth mdo y1)
    ∧ (monthSelectOptionDisabled m (some mn) (some md) (some yr) = true
        ↔ (m < monthInputMinMonth (some mn) (some yr)
            ∨ m > monthInputMaxMonth (some md) (some yr))) := by
  obtain ⟨hmd1, hmd2, -, -⟩ := hmd
  obtain ⟨hmn1, hmn2, -, -⟩ := hmn
  refine ⟨?_, rfl, rfl, ?_, rfl, rfl, fun _ _ => ⟨rfl, rfl⟩, ?_⟩
  · simp only [monthInputMaxMonth, getYear, getMonthHuman, Option.some.injEq]
    split_ifs <;> omega
  · simp only [monthInputMinMonth, getYear, getMonthHuman, Option.some.injEq]
    split_ifs <;> omega
  · simp only [monthSelectOptionDisabled, monthSelectMinMonth,
      monthSelectMaxMonth, monthInputMinMonth, monthInputMaxMonth]
    simp [Bool.or_eq_true, decide_eq_true_eq]

/-- Witness for C10: `maxDate = 2023-09-30` with the year segment at 2023
caps the month segment at 9; with the year segment at 2022 the cap is 12. -/
theorem c10_witness :
    CalDate.Valid ⟨2023, 9, 30⟩
    ∧ monthInputMaxMonth (some ⟨2023, 9, 30⟩) (some 2023) = 9
    ∧ monthInputMinMonth (some ⟨2023, 3, 1⟩) (some 2022) = 1 := by
  have h := c10_month_bounds ⟨2023, 9, 30⟩ ⟨2023, 3, 1⟩ 2023 none 5
    (by decide) (by decide)
  have h2 := c10_month_bounds ⟨2023, 9, 30⟩ ⟨2023, 3, 1⟩ 2022 none 5
    (by decide) (by decide)
  refine ⟨by decide, ?_, ?_⟩
  · rw [h.1]; norm_num [getMonthHuman]
  · rw [h2.2.2.2.1]; norm_num

/-- C4 counterexample: the valid triple (day 1, month 1, year 50) does not
round-trip — `new Date(50, 0, 1)` applies the constructor's two-digit-year
offset, so decomposition yields year 1950, not 50. -/
theorem c4_counterexample :
    CalDate.Valid ⟨50, 1, 1⟩
    ∧ mkDate 50 ((1 : Int) - 1) 1 = ⟨1950, 1, 1⟩
    ∧ getYear (mkDate 50 ((1 : Int) - 1) 1) ≠ 50 := by
  refine ⟨by decide, by decide, by decide⟩

/-- C4 (amended): assembling a valid calendar triple with
`new Date(year, month - 1, day)` and decomposing via
`getYear`/`getMonthHuman`/`getDate` returns the original triple for every
year outside `[0, 99]`; for years 1-99 the constructor offsets the year by
1900 (month and day still round-trip), so the round-trip fails there. -/
theorem c4_roundtrip (y : Int) (m d : Nat) (hv : CalDate.Valid ⟨y, m, d⟩) :
    (¬(0 ≤ y ∧ y ≤ 99) →
      getYear (mkDate y ((m : Int) - 1) (d : Int)) = y
      ∧ getMonthHuman (mkDate y ((m : Int) - 1) (d : Int)) = m
      ∧ getDate (mkDate y ((m : Int) - 1) (d : Int)) = d)
    ∧ (1 ≤ y ∧ y ≤ 99 →
      getYear (mkDate y ((m : Int) - 1) (d : Int)) = 1900 + y
      ∧ getMonthHuman (mkDate y ((m : Int) - 1) (d : Int)) = m
      ∧ getDate (mkDate y ((m : Int) - 1) (d : Int)) = d) := by
  obtain ⟨h1, h2, h3, h4⟩ := hv
  constructor
  · intro h
    rw [mkDate_eval y m d y (if_neg h) h1 h2 h3 h4]
    exact ⟨rfl, rfl, rfl⟩
  · intro h
    have e := daysInMonth_1900 y m h.1 h.2
    rw [mkDate_eval (1900 + y) m d y (if_pos ⟨by omega, h.2⟩) h1 h2 h3
      (by rw [e]; exact h4)]
    exact ⟨rfl, rfl, rfl⟩

/-- Witness for C4 at the valid triple (15, 7, 2023). -/
theorem c4_witness :
    CalDate.Valid ⟨2023, 7, 15⟩
    ∧ getYear (mkDate 2023 ((7 : Int) - 1) 15) = 2023
    ∧ getMonthHuman (mkDate 2023 ((7 : Int) - 1) 15) = 7
    ∧ getDate (mkDate 2023 ((7 : Int) - 1) 15) = 15 := by
  have h := (c4_roundtrip 2023 7 15 (by decide)).1 (by omega)
  exact ⟨by decide, h.1, h.2.1, h.2.2⟩

/-- A rendered year input belongs to the collected form-element list. -/
theorem yearElem_mem_formElements (s : SegmentInputs) (ye : FormElement)
    (h : s.yearInput = some ye) : ye ∈ formElements s := by
  simp only [formElements, h, List.mem_filterMap, id]
  exact ⟨some ye, by simp, rfl⟩

/-- With a recognised `returnValue`, processing a valid proposed date never
throws. -/
theorem getProcessedValue_valid_ok (rv : String)
    (hrv : rv = "start" ∨ rv = "end" ∨ rv = "range") (p : CalDate)
    (mn mx : Option CalDate) (md : View) :
    ∃ out, getProcessedValue rv (.single (.valid p)) mn mx md = .ok out := by
  rcases hrv with h | h | h <;> subst h
  · exact ⟨_, rfl⟩
  · exact ⟨_, rfl⟩
  · exact ⟨_, rfl⟩

/-- C3: on a segment edit (with the year segment rendered and a recognised
`returnValue`), the change callback receives the absent value exactly when
all rendered segment fields are blank; it receives the processed assembled
date — `new Date(year, month - 1, day)` with month and day defaulting to 1
when their segments are absent — exactly when every rendered field is
non-blank and individually valid; in every other state nothing is
emitted. -/
theorem c3_emission (s : SegmentInputs) (mn mx : Option CalDate) (md : View)
    (rv : String) (hy : s.yearInput.isSome = true)
    (hrv : rv = "start" ∨ rv = "end" ∨ rv = "range") :
    (onChangeExternal s mn mx md rv = .ok (some .absentValue)
      ↔ (formElements s).all (fun e => e.value.isNone) = true)
    ∧ ((∃ pv, onChangeExternal s mn mx md rv = .ok (some (.changed pv)))
      ↔ (formElements s).all (fun e => e.value.isSome && checkValidity e) = true)
    ∧ (onChangeExternal s mn mx md rv = .ok none
      ↔ ((formElements s).all (fun e => e.value.isNone) = false
          ∧ (formElements s).all (fun e => e.value.isSome && checkValidity e) = false))
    ∧ (∀ ye yv, s.yearInput = some ye → ye.value = some yv →
        (formElements s).all (fun e => e.value.isSome && checkValidity e) = true →
        onChangeExternal s mn mx md rv
          = (getProcessedValue rv
              (.single (.valid (mkDate yv
                  ((s.monthInput.bind (fun e => e.value)).getD 1 - 1)
                  ((s.dayInput.bind (fun e => e.value)).getD 1))))
              mn mx md).map (fun pv => some (.changed pv))) := by
  obtain ⟨ye, hye⟩ := Option.isSome_iff_exists.mp hy
  have hmem : ye ∈ formElements s := yearElem_mem_formElements s ye hye
  by_cases hA : (formElements s).all (fun e => e.value.isNone) = true
  · have hyeb : ye.value.isNone = true := List.all_eq_true.mp hA ye hmem
    have hB : (formElements s).all (fun e => e.value.isSome && checkValidity e) = false := by
      rw [List.all_eq_false]
      exact ⟨ye, hmem, by simp_all [Option.isNone_iff_eq_none]⟩
    have hres : onChangeExternal s mn mx md rv = .ok (some .absentValue) := by
      simp only [onChangeExternal]
      rw [if_pos hA]
    refine ⟨by simp [hres, hA], ?_, by simp [hres, hA], ?_⟩
    · constructor
      · rintro ⟨pv, hpv⟩
        rw [hres] at hpv
        simp at hpv
      · intro h
        rw [h] at hB
        simp at hB
    · intro ye' yv' hye' hyv' hB'
      rw [hB'] at hB
      simp at hB
  · by_cases hB : (formElements s).all (fun e => e.value.isSome && checkValidity e) = true
    · have hyeb : (ye.value.isSome && checkValidity ye) = true :=
        List.all_eq_true.mp hB ye hmem
      obtain ⟨yv, hyv⟩ := Option.isSome_iff_exists.mp (Bool.and_elim_left hyeb)
      have hres : onChangeExternal s mn mx md rv
          = (getProcessedValue rv
              (.single (.valid (mkDate yv
                  ((s.monthInput.bind (fun e => e.value)).getD 1 - 1)
                  ((s.dayInput.bind (fun e => e.value)).getD 1))))
              mn mx md).map (fun pv => some (.changed pv)) := by
        simp only [onChangeExternal]
        rw [if_neg hA, if_pos hB, hye]
        simp only [Option.some_bind, hyv]
      obtain ⟨out, hout⟩ := getProcessedValue_valid_ok rv hrv _ mn mx md
      have hres2 : onChangeExternal s mn mx md rv = .ok (some (.changed out)) := by
        rw [hres, hout]
        rfl
      refine ⟨?_, ?_, ?_, ?_⟩
      · rw [hres2]
        simp [hA]
      · exact iff_of_true ⟨out, hres2⟩ hB
      · simp [hres2, hB]
      · intro ye' yv' hye' hyv' _
        have he : ye = ye' := by
          rw [hye] at hye'
          exact Option.some_inj.mp hye'
        subst he
        have hv2 : yv = yv' := by
          rw [hyv] at hyv'
          exact Option.some_inj.mp hyv'
        subst hv2
        exact hres
    · have hres : onChangeExternal s mn mx md rv = .ok none := by
        simp only [onChangeExternal]
        rw [if_neg hA, if_neg hB]
      refine ⟨by simp [hres, hA], ?_, by simp [hres, hA, hB], ?_⟩
      · constructor
        · rintro ⟨pv, hpv⟩
          rw [hres] at hpv
          simp at hpv
        · intro h
          exact absurd h hB
      · intro ye' yv' hye' hyv' hB'
        exact absurd hB' hB

/-- Witness for C3: day 15 / month 7 / year 2023, all valid, emits the
processed (start-mode, month `maxDetail`) value 2023-07-15. -/
theorem c3_witness :
    onChangeExternal
        ⟨some ⟨some 15, 1, 31⟩, some ⟨some 7, 1, 12⟩, some ⟨some 2023, 1, 275760⟩⟩
        none none .month "start"
      = .ok (some (.changed (.single (some ⟨2023, 7, 15⟩)))) := by
  have h := (c3_emission
      ⟨some ⟨some 15, 1, 31⟩, some ⟨some 7, 1, 12⟩, some ⟨some 2023, 1, 275760⟩⟩
      none none .month "start" (by decide) (Or.inl rfl)).2.2.2
      ⟨some 2023, 1, 275760⟩ 2023 rfl rfl (by decide)
  rw [h]
  decide

end DatePicker
